import Mathlib

/-!
Shallow embedding of `simulate_system` from `src/heated_tank.py`
(Seweryn-Was/HeatedStiredTank-ControlSimulation), with theorems checking
the specification's claims about it.

Python floats are modelled by `ℚ`; arithmetic on the sampled sequences is
exact.  A Python `ZeroDivisionError` is modelled by returning `none`:
the function raises exactly when one of the divisions it executes has a
zero divisor (`T_i`, `time_step` before the loop; `Umax - Umin`, `V`,
`rho * Cp` inside the loop body, which runs only when `num_steps ≥ 1`).
-/

namespace HeatedTank

/-- The `params` dictionary consumed by `simulate_system` (same keys). -/
structure Params where
  V : ℚ
  Q_in_out : ℚ
  lamda : ℚ
  rho : ℚ
  Cp : ℚ
  Tin : ℚ
  Tset : ℚ
  Qmax : ℚ
  Qmin : ℚ
  t_sim : ℚ
  Umax : ℚ
  Umin : ℚ
  Kp : ℚ
  Tp : ℚ
  Ti : ℚ
  Td : ℚ
deriving DecidableEq

/-- `default_params` from the source file (floats as exact rationals). -/
def default_params : Params :=
  { V := 5, Q_in_out := 1/10, lamda := 2300000, rho := 1000, Cp := 4200,
    Tin := 15, Tset := 40, Qmax := 10, Qmin := 0, t_sim := 3600,
    Umax := 10, Umin := 0, Kp := 1/20, Tp := 1/10, Ti := 1, Td := 1/10 }

/-- `K_i = K_p * (time_step / T_i)` (line 45 of the source). -/
def K_i (p : Params) : ℚ := p.Kp * (p.Tp / p.Ti)

/-- `K_d = K_p * (T_d / time_step)` (line 46 of the source). -/
def K_d (p : Params) : ℚ := p.Kp * (p.Td / p.Tp)

/-- The last element of each list the loop maintains: `T`, `error`,
`integral_error`, `derivative_error`, `u`, `Q`.  The loop body only ever
reads the last element of each list (and `error[-2]`, which is the
previous iteration's `error` field), so this state determines the run. -/
structure LoopState where
  T : ℚ
  error : ℚ
  integral_error : ℚ
  derivative_error : ℚ
  u : ℚ
  Q : ℚ
deriving DecidableEq

/-- Initial list heads (lines 48-54): `T=[T_in]`, `error=[Tset-T[0]]`,
`integral_error=[0]`, `derivative_error=[0]`, `u=[0]`, `Q=[0]`. -/
def initState (p : Params) : LoopState :=
  { T := p.Tin, error := p.Tset - p.Tin, integral_error := 0,
    derivative_error := 0, u := 0, Q := 0 }

/-- One iteration of the `for n in range(1, num_steps + 1)` body
(lines 58-67), for loop index `n`, acting on the last-element state. -/
def loopStep (p : Params) (n : ℕ) (s : LoopState) : LoopState :=
  let error := p.Tset - s.T
  let integral_error := s.integral_error + error * p.Tp
  let derivative_error := if 1 < n then (error - s.error) / p.Tp else 0
  let u := p.Kp * error + K_i p * integral_error + K_d p * derivative_error
  let Q := min p.Qmax (max 0 (((p.Qmax - p.Qmin) / (p.Umax - p.Umin)) * (u - p.Umin) + p.Qmin))
  { T := s.T + (p.Tp / p.V) * ((p.lamda * Q / (p.rho * p.Cp)) + p.Q_in_out * (p.Tin - s.T)),
    error := error, integral_error := integral_error,
    derivative_error := derivative_error, u := u, Q := Q }

/-- State after the loop iterations `1, …, n` have run. -/
def stateAt (p : Params) : ℕ → LoopState
  | 0 => initState p
  | n + 1 => loopStep p (n + 1) (stateAt p n)

/-- Python `int(x)`: truncation toward zero. -/
def pyTrunc (x : ℚ) : ℤ := if 0 ≤ x then ⌊x⌋ else -⌊-x⌋

/-- `num_steps = int(end_time / time_step)` (line 56). -/
def num_steps (p : Params) : ℤ := pyTrunc (p.t_sim / p.Tp)

/-- Number of loop iterations actually executed: `range(1, num_steps + 1)`
is empty when `num_steps ≤ 0`. -/
def stepCount (p : Params) : ℕ := (num_steps p).toNat

/-- The triple `(t_time, T, Q)` returned by `simulate_system`. -/
structure Trace where
  t_time : List ℚ
  T : List ℚ
  Q : List ℚ
deriving DecidableEq

/-- `simulate_system` (lines 27-69).  Each returned list holds its initial
element followed by one element per executed loop iteration; element `n`
of `t_time` is `n * time_step` (line 59) and elements `n` of `T` and `Q`
are the values appended during iteration `n` (the fields of `stateAt p n`).
`none` models the `ZeroDivisionError` cases noted in the header. -/
def simulate_system (p : Params) : Option Trace :=
  if p.Ti = 0 ∨ p.Tp = 0 then none
  else if 1 ≤ num_steps p ∧ (p.Umax = p.Umin ∨ p.V = 0 ∨ p.rho * p.Cp = 0) then none
  else some
    { t_time := (List.range (stepCount p + 1)).map (fun (n : ℕ) => (n : ℚ) * p.Tp),
      T := (List.range (stepCount p + 1)).map (fun n => (stateAt p n).T),
      Q := (List.range (stepCount p + 1)).map (fun n => (stateAt p n).Q) }

/-- Concrete parameter set used to probe the plant-update formula:
`V = 2`, no through-flow, unit physical constants. -/
def cp1 : Params :=
  { V := 2, Q_in_out := 0, lamda := 1, rho := 1, Cp := 1,
    Tin := 0, Tset := 1, Qmax := 10, Qmin := 0, t_sim := 1,
    Umax := 1, Umin := 0, Kp := 1, Tp := 1, Ti := 1, Td := 0 }

/-- Trace produced by `simulate_system cp1` (one loop iteration). -/
def tr1 : Trace := { t_time := [0, 1], T := [0, 5], Q := [0, 10] }

/-- Concrete valid parameter set with `num_steps = 1` and zero gains. -/
def cp2 : Params :=
  { V := 1, Q_in_out := 0, lamda := 0, rho := 1, Cp := 1,
    Tin := 0, Tset := 0, Qmax := 1, Qmin := 0, t_sim := 1,
    Umax := 1, Umin := 0, Kp := 0, Tp := 1, Ti := 1, Td := 0 }

/-- Trace produced by `simulate_system cp2`. -/
def tr2 : Trace := { t_time := [0, 1], T := [0, 0], Q := [0, 0] }

/-- Concrete parameter set with a positive heat-flow floor `Qmin = 5`. -/
def cp3 : Params :=
  { V := 1, Q_in_out := 0, lamda := 0, rho := 1, Cp := 1,
    Tin := 0, Tset := 0, Qmax := 10, Qmin := 5, t_sim := 1,
    Umax := 1, Umin := 0, Kp := 0, Tp := 1, Ti := 1, Td := 0 }

/-- Trace produced by `simulate_system cp3`. -/
def tr3 : Trace := { t_time := [0, 1], T := [0, 0], Q := [0, 5] }

/-- Concrete parameter set violating several spec validation rules at
once: negative duration, negative density, inverted heat-flow bounds. -/
def cp4 : Params :=
  { V := 1, Q_in_out := 0, lamda := 0, rho := -1, Cp := 1,
    Tin := 0, Tset := 0, Qmax := 0, Qmin := 10, t_sim := -1,
    Umax := 1, Umin := 0, Kp := 1, Tp := 1, Ti := 1, Td := 0 }

/-- Trace produced by `simulate_system cp4` (`num_steps = -1`, so the
loop body never runs and only the initial samples are returned). -/
def tr4 : Trace := { t_time := [0], T := [0], Q := [0] }

/-- Concrete zero-gain parameter set with `Umin = -10`, so the actuator
rescale maps `u = 0` to a nonzero heat flow. -/
def cp5 : Params :=
  { V := 1, Q_in_out := 0, lamda := 0, rho := 1, Cp := 1,
    Tin := 0, Tset := 0, Qmax := 10, Qmin := 0, t_sim := 1,
    Umax := 10, Umin := -10, Kp := 0, Tp := 1, Ti := 1, Td := 1 }

/-- Trace produced by `simulate_system cp5`. -/
def tr5 : Trace := { t_time := [0, 1], T := [0, 0], Q := [0, 5] }

/-- Default parameters with `t_sim = 0.05` and `Tp = 0.1`, so that
`int(end_time / time_step) = int(0.5) = 0`. -/
def cp6 : Params :=
  { V := 5, Q_in_out := 1/10, lamda := 2300000, rho := 1000, Cp := 4200,
    Tin := 15, Tset := 40, Qmax := 10, Qmin := 0, t_sim := 1/20,
    Umax := 10, Umin := 0, Kp := 1/20, Tp := 1/10, Ti := 1, Td := 1/10 }

/-- Trace produced by `simulate_system cp6` (zero loop iterations). -/
def tr6 : Trace := { t_time := [0], T := [15], Q := [0] }

/-- Concrete parameter set with a negative time step and inverted
heat-flow bounds, but all divisor expressions nonzero. -/
def cp10 : Params :=
  { V := 1, Q_in_out := 0, lamda := 0, rho := 1, Cp := 1,
    Tin := 0, Tset := 0, Qmax := 0, Qmin := 10, t_sim := 1,
    Umax := 1, Umin := 0, Kp := 0, Tp := -1, Ti := 1, Td := 0 }

theorem stateAt_zero (p : Params) : stateAt p 0 = initState p := rfl

theorem stateAt_succ (p : Params) (n : ℕ) :
    stateAt p (n + 1) = loopStep p (n + 1) (stateAt p n) := rfl

theorem stateAt_one (p : Params) : stateAt p 1 = loopStep p 1 (initState p) := rfl

theorem simulate_cp1 : simulate_system cp1 = some tr1 := by
  have h1 : num_steps cp1 = 1 := by norm_num [num_steps, pyTrunc, cp1]
  have hsc : stepCount cp1 = 1 := by rw [stepCount, h1]; rfl
  have hst : stateAt cp1 1 =
      { T := 5, error := 1, integral_error := 1, derivative_error := 0, u := 2, Q := 10 } := by
    rw [stateAt_one]
    norm_num [loopStep, initState, K_i, K_d, cp1, min_def, max_def]
  rw [simulate_system, if_neg (by norm_num [cp1]), if_neg (by norm_num [cp1]), hsc]
  simp only [List.range_succ, List.range_zero, List.map_append, List.map_cons, List.map_nil,
    List.nil_append, hst, stateAt_zero, tr1]
  norm_num [cp1, initState]

theorem simulate_eq_some {p : Params} {tr : Trace} (h : simulate_system p = some tr) :
    tr.t_time = (List.range (stepCount p + 1)).map (fun (n : ℕ) => (n : ℚ) * p.Tp) ∧
    tr.T = (List.range (stepCount p + 1)).map (fun n => (stateAt p n).T) ∧
    tr.Q = (List.range (stepCount p + 1)).map (fun n => (stateAt p n).Q) := by
  rw [simulate_system] at h
  split at h
  · simp at h
  · split at h
    · simp at h
    · obtain rfl := (Option.some.inj h).symm
      exact ⟨rfl, rfl, rfl⟩

theorem getD_range_map (f : ℕ → ℚ) {m k : ℕ} (h : k < m) :
    ((List.range m).map f).getD k 0 = f k := by
  rw [List.getD_eq_getElem?_getD, List.getElem?_map, List.getElem?_range h]
  rfl

theorem length_range_map (f : ℕ → ℚ) (m : ℕ) : ((List.range m).map f).length = m := by
  simp

theorem stateAt_T_succ (p : Params) (n : ℕ) :
    (stateAt p (n + 1)).T = (stateAt p n).T + (p.Tp / p.V) *
      ((p.lamda * (stateAt p (n + 1)).Q / (p.rho * p.Cp)) +
        p.Q_in_out * (p.Tin - (stateAt p n).T)) := rfl

theorem stateAt_Q_succ (p : Params) (n : ℕ) :
    (stateAt p (n + 1)).Q = min p.Qmax (max 0
      (((p.Qmax - p.Qmin) / (p.Umax - p.Umin)) * ((stateAt p (n + 1)).u - p.Umin) + p.Qmin)) := rfl

theorem u_eq_zero (p : Params) (hK : p.Kp = 0) (n : ℕ) : (stateAt p (n + 1)).u = 0 := by
  rw [stateAt_succ]
  simp [loopStep, K_i, K_d, hK]

theorem Q_const_of_Kp_zero (p : Params) (hK : p.Kp = 0) (n : ℕ) :
    (stateAt p (n + 1)).Q = min p.Qmax (max 0
      (((p.Qmax - p.Qmin) / (p.Umax - p.Umin)) * (0 - p.Umin) + p.Qmin)) := by
  rw [stateAt_Q_succ, u_eq_zero p hK n]

theorem Q_succ_bounds (p : Params) (h : 0 ≤ p.Qmax) (n : ℕ) :
    0 ≤ (stateAt p (n + 1)).Q ∧ (stateAt p (n + 1)).Q ≤ p.Qmax := by
  rw [stateAt_Q_succ]
  exact ⟨le_min h (le_max_left _ _), min_le_left _ _⟩

theorem isSome_of (p : Params) (h1 : p.Ti ≠ 0) (h2 : p.Tp ≠ 0) (h3 : p.Umax ≠ p.Umin)
    (h4 : p.V ≠ 0) (h5 : p.rho * p.Cp ≠ 0) : (simulate_system p).isSome = true := by
  rw [simulate_system, if_neg (by tauto), if_neg (by tauto)]
  rfl

theorem simulate_zero (p : Params) (h1 : p.Ti ≠ 0) (h2 : p.Tp ≠ 0) (h0 : num_steps p ≤ 0) :
    simulate_system p = some { t_time := [0], T := [p.Tin], Q := [0] } := by
  have hsc : stepCount p = 0 := Int.toNat_eq_zero.mpr h0
  rw [simulate_system, if_neg (by tauto), if_neg (by rintro ⟨hge, -⟩; omega), hsc]
  simp only [List.range_succ, List.range_zero, List.map_append, List.map_cons, List.map_nil,
    List.nil_append, stateAt_zero]
  norm_num [initState]

theorem simulate_cp2 : simulate_system cp2 = some tr2 := by
  have h1 : num_steps cp2 = 1 := by norm_num [num_steps, pyTrunc, cp2]
  have hsc : stepCount cp2 = 1 := by rw [stepCount, h1]; rfl
  have hst : stateAt cp2 1 =
      { T := 0, error := 0, integral_error := 0, derivative_error := 0, u := 0, Q := 0 } := by
    rw [stateAt_one]
    norm_num [loopStep, initState, K_i, K_d, cp2, min_def, max_def]
  rw [simulate_system, if_neg (by norm_num [cp2]), if_neg (by norm_num [cp2]), hsc]
  simp only [List.range_succ, List.range_zero, List.map_append, List.map_cons, List.map_nil,
    List.nil_append, hst, stateAt_zero, tr2]
  norm_num [cp2, initState]

theorem simulate_cp3 : simulate_system cp3 = some tr3 := by
  have h1 : num_steps cp3 = 1 := by norm_num [num_steps, pyTrunc, cp3]
  have hsc : stepCount cp3 = 1 := by rw [stepCount, h1]; rfl
  have hst : stateAt cp3 1 =
      { T := 0, error := 0, integral_error := 0, derivative_error := 0, u := 0, Q := 5 } := by
    rw [stateAt_one]
    norm_num [loopStep, initState, K_i, K_d, cp3, min_def, max_def]
  rw [simulate_system, if_neg (by norm_num [cp3]), if_neg (by norm_num [cp3]), hsc]
  simp only [List.range_succ, List.range_zero, List.map_append, List.map_cons, List.map_nil,
    List.nil_append, hst, stateAt_zero, tr3]
  norm_num [cp3, initState]

theorem simulate_cp4 : simulate_system cp4 = some tr4 := by
  have h0 : num_steps cp4 ≤ 0 := by norm_num [num_steps, pyTrunc, cp4]
  rw [simulate_zero cp4 (by norm_num [cp4]) (by norm_num [cp4]) h0]
  rfl

theorem simulate_cp5 : simulate_system cp5 = some tr5 := by
  have h1 : num_steps cp5 = 1 := by norm_num [num_steps, pyTrunc, cp5]
  have hsc : stepCount cp5 = 1 := by rw [stepCount, h1]; rfl
  have hst : stateAt cp5 1 =
      { T := 0, error := 0, integral_error := 0, derivative_error := 0, u := 0, Q := 5 } := by
    rw [stateAt_one]
    norm_num [loopStep, initState, K_i, K_d, cp5, min_def, max_def]
  rw [simulate_system, if_neg (by norm_num [cp5]), if_neg (by norm_num [cp5]), hsc]
  simp only [List.range_succ, List.range_zero, List.map_append, List.map_cons, List.map_nil,
    List.nil_append, hst, stateAt_zero, tr5]
  norm_num [cp5, initState]

theorem simulate_cp6 : simulate_system cp6 = some tr6 := by
  have h0 : num_steps cp6 ≤ 0 := by norm_num [num_steps, pyTrunc, cp6]
  rw [simulate_zero cp6 (by norm_num [cp6]) (by norm_num [cp6]) h0]
  rfl

/-- C1, counterexample: at `cp1` the produced temperature update does not
satisfy the claimed formula `T[n+1] = T[n] + Δt * ((λ·Q[n])/(ρ·Cp) +
F_through*(T_in - T[n])/V)` — neither with the heat sample `Q[n]` of the
claim's indexing nor with the heat sample `Q[n+1]` actually used by the
loop body.  The heat-input term is in fact also divided by `V`. -/
theorem C1_counterexample :
    simulate_system cp1 = some tr1 ∧
    tr1.T.getD 1 0 ≠ tr1.T.getD 0 0 + cp1.Tp *
      (cp1.lamda * tr1.Q.getD 0 0 / (cp1.rho * cp1.Cp) +
        cp1.Q_in_out * (cp1.Tin - tr1.T.getD 0 0) / cp1.V) ∧
    tr1.T.getD 1 0 ≠ tr1.T.getD 0 0 + cp1.Tp *
      (cp1.lamda * tr1.Q.getD 1 0 / (cp1.rho * cp1.Cp) +
        cp1.Q_in_out * (cp1.Tin - tr1.T.getD 0 0) / cp1.V) := by
  refine ⟨simulate_cp1, ?_, ?_⟩ <;> norm_num [cp1, tr1]

/-- C1, amended: every integration step of `simulate_system` computes
`T[n+1] = T[n] + (Δt/V) * ((λ·Q[n+1])/(ρ·Cp) + F_through*(T_in - T[n]))`:
the `1/V` factor multiplies the whole derivative, heat-input term
included, and the heat sample used is the one appended in the same
iteration (index `n+1` of the returned `Q` sequence). -/
theorem C1_plant_update (p : Params) (tr : Trace) (h : simulate_system p = some tr)
    (n : ℕ) (hn : n + 1 < tr.T.length) :
    tr.T.getD (n + 1) 0 = tr.T.getD n 0 + (p.Tp / p.V) *
      ((p.lamda * tr.Q.getD (n + 1) 0 / (p.rho * p.Cp)) +
        p.Q_in_out * (p.Tin - tr.T.getD n 0)) := by
  obtain ⟨-, hT, hQ⟩ := simulate_eq_some h
  rw [hT] at hn ⊢
  rw [hQ, length_range_map] at *
  rw [getD_range_map _ hn, getD_range_map _ (Nat.lt_of_succ_lt hn), getD_range_map _ hn]
  exact stateAt_T_succ p n

/-- C1, witness: the amended update rule instantiated at `cp1`, `n = 0`. -/
theorem C1_plant_update_witness :
    simulate_system cp1 = some tr1 ∧ 0 + 1 < tr1.T.length ∧
    tr1.T.getD (0 + 1) 0 = tr1.T.getD 0 0 + (cp1.Tp / cp1.V) *
      ((cp1.lamda * tr1.Q.getD (0 + 1) 0 / (cp1.rho * cp1.Cp)) +
        cp1.Q_in_out * (cp1.Tin - tr1.T.getD 0 0)) :=
  ⟨simulate_cp1, by norm_num [tr1],
    C1_plant_update cp1 tr1 simulate_cp1 0 (by norm_num [tr1])⟩

/-- C2, counterexample: `cp2` is a valid parameter set (positive step,
duration, density, specific heat; ordered bounds) with `N = int(duration
/ step) = 1`, yet every returned sequence has length `2 = N + 1`. -/
theorem C2_counterexample :
    num_steps cp2 = 1 ∧ simulate_system cp2 = some tr2 ∧
    tr2.t_time.length ≠ (num_steps cp2).toNat := by
  have h1 : num_steps cp2 = 1 := by norm_num [num_steps, pyTrunc, cp2]
  exact ⟨h1, simulate_cp2, by rw [h1]; norm_num [tr2]⟩

/-- C2, amended: the three returned sequences always have identical
length, equal to `max(int(duration/step), 0) + 1` — one sample more than
the executed loop iteration count, and no `N ≥ 1` requirement exists. -/
theorem C2_lengths (p : Params) (tr : Trace) (h : simulate_system p = some tr) :
    tr.t_time.length = stepCount p + 1 ∧ tr.T.length = stepCount p + 1 ∧
    tr.Q.length = stepCount p + 1 := by
  obtain ⟨ht, hT, hQ⟩ := simulate_eq_some h
  rw [ht, hT, hQ, length_range_map, length_range_map, length_range_map]
  exact ⟨rfl, rfl, rfl⟩

/-- C2, witness: the length law instantiated at `cp2`. -/
theorem C2_lengths_witness :
    simulate_system cp2 = some tr2 ∧
    (tr2.t_time.length = stepCount cp2 + 1 ∧ tr2.T.length = stepCount cp2 + 1 ∧
      tr2.Q.length = stepCount cp2 + 1) :=
  ⟨simulate_cp2, C2_lengths cp2 tr2 simulate_cp2⟩

/-- C3, counterexample: with the positive floor `Qmin = 5` configured in
`cp3`, the first control-output sample is `0 < Qmin`, so not every
element of `Q` lies within `[Qmin, Qmax]`. -/
theorem C3_counterexample :
    0 < cp3.Qmin ∧ simulate_system cp3 = some tr3 ∧
    ¬ cp3.Qmin ≤ tr3.Q.getD 0 0 := by
  exact ⟨by norm_num [cp3], simulate_cp3, by norm_num [cp3, tr3]⟩

/-- C3, amended: when `Qmax ≥ 0`, every element of the control-output
sequence lies within `[0, Qmax]`: the clamp applied in the loop is
`min(Qmax, max(0, ·))`, whose lower bound is `0` rather than the
configured `Qmin`, and the unclamped first sample equals `0`. -/
theorem C3_bounds (p : Params) (tr : Trace) (h : simulate_system p = some tr)
    (hQ : 0 ≤ p.Qmax) : ∀ x ∈ tr.Q, 0 ≤ x ∧ x ≤ p.Qmax := by
  obtain ⟨-, -, hQl⟩ := simulate_eq_some h
  rw [hQl]
  intro x hx
  obtain ⟨n, -, rfl⟩ := List.mem_map.mp hx
  cases n with
  | zero => exact ⟨le_refl _, hQ⟩
  | succ m => exact Q_succ_bounds p hQ m

/-- C3, witness: the amended bounds instantiated at `cp3` and the sample
`5 ∈ tr3.Q`. -/
theorem C3_bounds_witness :
    simulate_system cp3 = some tr3 ∧ 0 ≤ cp3.Qmax ∧ (5 : ℚ) ∈ tr3.Q ∧
    (0 ≤ (5 : ℚ) ∧ (5 : ℚ) ≤ cp3.Qmax) :=
  ⟨simulate_cp3, by norm_num [cp3], by norm_num [tr3],
    C3_bounds cp3 tr3 simulate_cp3 (by norm_num [cp3]) 5 (by norm_num [tr3])⟩

/-- C4, counterexample: `cp4` violates duration > 0, density > 0 and
`Qmin ≤ Qmax` simultaneously, yet `simulate_system` performs no
validation, raises nothing, and returns a trace. -/
theorem C4_counterexample :
    (cp4.t_sim ≤ 0 ∧ cp4.rho ≤ 0 ∧ cp4.Qmax < cp4.Qmin) ∧
    simulate_system cp4 = some tr4 :=
  ⟨by norm_num [cp4], simulate_cp4⟩

/-- C4, amended: the code contains no parameter validation and no
`InvalidParameters` error.  Any parameter set whose divisor expressions
are nonzero produces a full trace, even when it violates the spec's
constraints (non-positive duration, negative time step, non-positive
density or specific heat, inverted saturation bounds). -/
theorem C4_no_validation (p : Params) (h1 : p.Ti ≠ 0) (h2 : p.Tp ≠ 0)
    (h3 : p.Umax ≠ p.Umin) (h4 : p.V ≠ 0) (h5 : p.rho ≠ 0) (h6 : p.Cp ≠ 0)
    (_hbad : p.t_sim ≤ 0 ∨ p.Tp < 0 ∨ p.rho < 0 ∨ p.Cp < 0 ∨
      p.Qmax < p.Qmin ∨ p.Umax < p.Umin) :
    (simulate_system p).isSome = true :=
  isSome_of p h1 h2 h3 h4 (mul_ne_zero h5 h6)

/-- C4, witness: `C4_no_validation` instantiated at `cp4`. -/
theorem C4_no_validation_witness :
    (cp4.Ti ≠ 0 ∧ cp4.Tp ≠ 0 ∧ cp4.Umax ≠ cp4.Umin ∧ cp4.V ≠ 0 ∧
      cp4.rho ≠ 0 ∧ cp4.Cp ≠ 0 ∧ cp4.t_sim ≤ 0) ∧
    (simulate_system cp4).isSome = true :=
  ⟨by norm_num [cp4],
    C4_no_validation cp4 (by norm_num [cp4]) (by norm_num [cp4]) (by norm_num [cp4])
      (by norm_num [cp4]) (by norm_num [cp4]) (by norm_num [cp4])
      (Or.inl (by norm_num [cp4]))⟩

/-- C5, counterexample: `cp5` has all controller gains zero (`Kp = 0`,
hence `K_i = K_d = 0`) and floor `Qmin = 0`, yet the second
control-output sample is `5 ≠ 0`: the actuator rescale maps `u = 0` to
`((Qmax-Qmin)/(Umax-Umin))*(0-Umin)+Qmin = 5` because `Umin = -10`. -/
theorem C5_counterexample :
    (cp5.Kp = 0 ∧ K_i cp5 = 0 ∧ K_d cp5 = 0 ∧ cp5.Qmin = 0) ∧
    simulate_system cp5 = some tr5 ∧ tr5.Q.getD 1 0 ≠ 0 := by
  refine ⟨⟨rfl, ?_, ?_, rfl⟩, simulate_cp5, by norm_num [tr5]⟩ <;>
    norm_num [K_i, K_d, cp5]

/-- C5, amended: with `Kp = 0` (hence `K_i = K_d = 0`), the raw control
signal is `0` at every step, and every control-output sample after the
first equals the constant
`min(Qmax, max(0, ((Qmax-Qmin)/(Umax-Umin))*(0-Umin)+Qmin))` — the
saturated image of `u = 0` under the actuator rescale, which is `Qmin`
when `Umin = 0` and `0 ≤ Qmin ≤ Qmax`, but not `0` or `Qmin` in
general; the first sample stays `0`. -/
theorem C5_zero_gain (p : Params) (tr : Trace) (hK : p.Kp = 0)
    (h : simulate_system p = some tr) :
    ∀ k, k < tr.Q.length → 1 ≤ k → tr.Q.getD k 0 = min p.Qmax (max 0
      (((p.Qmax - p.Qmin) / (p.Umax - p.Umin)) * (0 - p.Umin) + p.Qmin)) := by
  obtain ⟨-, -, hQl⟩ := simulate_eq_some h
  rw [hQl, length_range_map]
  intro k hk h1
  cases k with
  | zero => omega
  | succ m => rw [getD_range_map _ hk]; exact Q_const_of_Kp_zero p hK m

/-- C5, witness: the zero-gain law instantiated at `cp5`, `k = 1`. -/
theorem C5_zero_gain_witness :
    cp5.Kp = 0 ∧ simulate_system cp5 = some tr5 ∧ 1 < tr5.Q.length ∧
    tr5.Q.getD 1 0 = min cp5.Qmax (max 0
      (((cp5.Qmax - cp5.Qmin) / (cp5.Umax - cp5.Umin)) * (0 - cp5.Umin) + cp5.Qmin)) :=
  ⟨rfl, simulate_cp5, by norm_num [tr5],
    C5_zero_gain cp5 tr5 rfl simulate_cp5 1 (by norm_num [tr5]) (by norm_num)⟩

/-- C6, counterexample: with `duration = 0.05` and `Δt = 0.1` (all other
parameters the defaults), `int(duration/Δt) = 0`, and `simulate_system`
does not reject the configuration: it returns the one-sample trace
`([0], [T_in], [0])` instead of raising any error. -/
theorem C6_counterexample :
    num_steps cp6 = 0 ∧ simulate_system cp6 = some tr6 :=
  ⟨by norm_num [num_steps, pyTrunc, cp6], simulate_cp6⟩

/-- C6, amended: a configuration whose `duration / step` truncates to
zero (or negative) steps is accepted, not rejected: the loop body never
runs and `simulate_system` returns the initial samples only, i.e. the
trace `([0], [T_in], [0])`.  No `InvalidParameters` error exists. -/
theorem C6_zero_step_trace (p : Params) (h1 : p.Ti ≠ 0) (h2 : p.Tp ≠ 0)
    (h0 : num_steps p ≤ 0) :
    simulate_system p = some { t_time := [0], T := [p.Tin], Q := [0] } :=
  simulate_zero p h1 h2 h0

/-- C6, witness: `C6_zero_step_trace` instantiated at `cp6`. -/
theorem C6_zero_step_trace_witness :
    (cp6.Ti ≠ 0 ∧ cp6.Tp ≠ 0 ∧ num_steps cp6 ≤ 0) ∧
    simulate_system cp6 = some { t_time := [0], T := [cp6.Tin], Q := [0] } :=
  ⟨⟨by norm_num [cp6], by norm_num [cp6], by norm_num [num_steps, pyTrunc, cp6]⟩,
    C6_zero_step_trace cp6 (by norm_num [cp6]) (by norm_num [cp6])
      (by norm_num [num_steps, pyTrunc, cp6])⟩

/-- C7: `simulate_system` is a pure function of its parameter record —
it keeps no state between runs and uses no randomness or clock — so two
calls with equal parameter sets return element-for-element equal output
sequences. -/
theorem C7_deterministic (p q : Params) (h : p = q) :
    simulate_system p = simulate_system q := by rw [h]

/-- C7, witness: determinism instantiated at the source's
`default_params`. -/
theorem C7_deterministic_witness :
    default_params = default_params ∧
    simulate_system default_params = simulate_system default_params :=
  ⟨rfl, C7_deterministic default_params default_params rfl⟩

/-- C8: the returned time sequence starts at `0` and its `k`-th element
is `k * Δt` for every index `k`. -/
theorem C8_time_grid (p : Params) (tr : Trace) (h : simulate_system p = some tr) :
    tr.t_time.getD 0 0 = 0 ∧
    ∀ k, k < tr.t_time.length → tr.t_time.getD k 0 = (k : ℚ) * p.Tp := by
  obtain ⟨ht, -, -⟩ := simulate_eq_some h
  rw [ht, length_range_map]
  constructor
  · rw [getD_range_map _ (Nat.succ_pos _)]
    norm_num
  · intro k hk
    rw [getD_range_map _ hk]

/-- C8, witness: the time grid law instantiated at `cp2`, `k = 1`. -/
theorem C8_time_grid_witness :
    simulate_system cp2 = some tr2 ∧ 1 < tr2.t_time.length ∧
    tr2.t_time.getD 1 0 = ((1 : ℕ) : ℚ) * cp2.Tp :=
  ⟨simulate_cp2, by norm_num [tr2],
    (C8_time_grid cp2 tr2 simulate_cp2).2 1 (by norm_num [tr2])⟩

/-- C9: the first control-output sample is exactly `0` for every run
that returns — it is the literal head of `Q = [0]` written before the
loop, no clamp is applied to it, and hence it lies strictly below any
positive configured floor `Qmin`. -/
theorem C9_first_Q (p : Params) (tr : Trace) (h : simulate_system p = some tr) :
    tr.Q.getD 0 0 = 0 ∧ (0 < p.Qmin → tr.Q.getD 0 0 < p.Qmin) := by
  obtain ⟨-, -, hQl⟩ := simulate_eq_some h
  rw [hQl, getD_range_map _ (Nat.succ_pos _)]
  have h0 : (stateAt p 0).Q = 0 := rfl
  rw [h0]
  exact ⟨rfl, fun hq => hq⟩

/-- C9, witness: the first-sample law instantiated at `cp3`, whose
configured floor `Qmin = 5` is positive. -/
theorem C9_first_Q_witness :
    simulate_system cp3 = some tr3 ∧ 0 < cp3.Qmin ∧
    (tr3.Q.getD 0 0 = 0 ∧ (0 < cp3.Qmin → tr3.Q.getD 0 0 < cp3.Qmin)) :=
  ⟨simulate_cp3, by norm_num [cp3], C9_first_Q cp3 tr3 simulate_cp3⟩

/-- C10: `simulate_system` performs no field validation; whenever its
divisor expressions are nonzero (`Ti`, `time_step`, `Umax - Umin`, `V`,
`rho`, `Cp`) it terminates and returns a trace, also for negative or
zero durations, negative time steps and inverted saturation bounds. -/
theorem C10_total (p : Params) (h1 : p.Ti ≠ 0) (h2 : p.Tp ≠ 0)
    (h3 : p.Umax ≠ p.Umin) (h4 : p.V ≠ 0) (h5 : p.rho ≠ 0) (h6 : p.Cp ≠ 0) :
    (simulate_system p).isSome = true :=
  isSome_of p h1 h2 h3 h4 (mul_ne_zero h5 h6)

/-- C10, witness: `C10_total` at `cp10`, a parameter set with a negative
time step and inverted heat-flow bounds. -/
theorem C10_total_witness :
    (cp10.Ti ≠ 0 ∧ cp10.Tp ≠ 0 ∧ cp10.Umax ≠ cp10.Umin ∧ cp10.V ≠ 0 ∧
      cp10.rho ≠ 0 ∧ cp10.Cp ≠ 0 ∧ cp10.Tp < 0 ∧ cp10.Qmax < cp10.Qmin) ∧
    (simulate_system cp10).isSome = true :=
  ⟨by norm_num [cp10],
    C10_total cp10 (by norm_num [cp10]) (by norm_num [cp10]) (by norm_num [cp10])
      (by norm_num [cp10]) (by norm_num [cp10]) (by norm_num [cp10])⟩

end HeatedTank
